import Mathlib

/-!
Shallow embedding of the archetype-based ECS engine (src/src/ecs) and proofs
about the claims of its specification.

Modelling conventions:
* Machine integers (`u32`, `usize`, `u64`) are modelled as `Nat`.  Where the
  source traps on overflow (`checked_add(1).expect(..)`) the model returns
  `none` once the `u32` bound would be exceeded.
* A Rust panic (direct indexing out of bounds, `unwrap`/`expect` on an error,
  a failed `debug_assert`) is modelled as the result `none`.
* `&mut self` methods are modelled by explicit state passing; a method that can
  both fail recoverably and mutate returns `Option (Except err α × State)`,
  where the returned state is the state at the point of the `return`.
* `HashMap<TypeId, _>` is modelled as an association list kept sorted by key
  with no duplicate keys.  The iteration order of `std::collections::HashMap`
  is unspecified; the sorted order realises one admissible order and is the
  order the source's `binary_search` over the collected type-id list assumes
  (the source also sorts the stores before building the map in
  `ComponentBundle::new_archetype`).
* The 64-bit bundle hash of the sorted type-id list is modelled by the sorted
  type-id list itself (a collision-free hash).
* Component values are type-erased in the source; the model stores them
  uniformly as `Nat`.
-/

namespace RustEcs

abbrev TypeId := Nat

abbrev EntityId := Nat

abbrev Generation := Nat

abbrev ArchetypeId := Nat

abbrev Val := Nat

/-- Upper bound of the `u32` generation counter: `checked_add` traps at it. -/
def GEN_LIMIT : Nat := 2 ^ 32

structure EntityLocation where
  archetype_id : ArchetypeId
  index_in_archetype : Nat
deriving DecidableEq

structure Entity where
  index : EntityId
  generation : Generation
deriving DecidableEq

structure EntityEntry where
  is_live : Bool
  generation : Generation
  location : EntityLocation
deriving DecidableEq

inductive EntityError where
  | DoesNotExist
  | AlreadyAllocated
  | AlreadyDeallocated
deriving DecidableEq

/-- The generational entity table (src/src/ecs/entities.rs).  The free list is
a stack; the most recently freed index is the head of `free` (the source uses
`Vec::push`/`Vec::pop` at the back). -/
structure Entities where
  entries : List EntityEntry
  free : List EntityId
deriving DecidableEq

/-- Entities::allocate.  Pops the most recently freed index if any, checking
the internal liveness invariant; otherwise appends a fresh slot at
generation 0.  Note that in the error case the free list has already been
popped, exactly as in the source. -/
def Entities.allocate (es : Entities) : Option (Except EntityError Entity × Entities) :=
  match es.free with
  | index :: rest =>
    match es.entries[index]? with
    | none => none
    | some entry =>
      if entry.is_live then some (.error .AlreadyAllocated, ⟨es.entries, rest⟩)
      else
        some (.ok ⟨index, entry.generation⟩,
          ⟨es.entries.set index ⟨true, entry.generation, entry.location⟩, rest⟩)
  | [] =>
    some (.ok ⟨es.entries.length, 0⟩, ⟨es.entries ++ [⟨true, 0, ⟨0, 0⟩⟩], []⟩)

/-- Entities::deallocate.  Out-of-range index fails with `DoesNotExist`,
a dead slot with `AlreadyDeallocated`; otherwise the slot is marked not-live,
its generation incremented (trapping at the u32 bound) and the index pushed
onto the free list. -/
def Entities.deallocate (es : Entities) (e : Entity) :
    Option (Except EntityError Unit × Entities) :=
  if es.entries.length ≤ e.index then some (.error .DoesNotExist, es)
  else
    match es.entries[e.index]? with
    | none => none
    | some entry =>
      if entry.is_live then
        if entry.generation + 1 < GEN_LIMIT then
          some (.ok (),
            ⟨es.entries.set e.index ⟨false, entry.generation + 1, entry.location⟩,
             e.index :: es.free⟩)
        else none
      else some (.error .AlreadyDeallocated, es)

/-- Entities::set_location. -/
def Entities.set_location (es : Entities) (entity_id : EntityId)
    (location : EntityLocation) : Option (Except EntityError Unit × Entities) :=
  if es.entries.length ≤ entity_id then some (.error .DoesNotExist, es)
  else
    match es.entries[entity_id]? with
    | none => none
    | some entry =>
      if entry.is_live then
        some (.ok (), ⟨es.entries.set entity_id ⟨true, entry.generation, location⟩, es.free⟩)
      else some (.error .AlreadyDeallocated, es)

/-- Entities::is_live: the slot must be live and the stored generation must
match the handle's generation. -/
def Entities.is_live (es : Entities) (e : Entity) : Bool :=
  match es.entries[e.index]? with
  | some entry => entry.is_live && entry.generation == e.generation
  | none => false

/-- Entities::live_at_index: entry snapshot if the slot is live.  The handle's
generation is not consulted. -/
def Entities.live_at_index (es : Entities) (index : EntityId) : Option EntityEntry :=
  match es.entries[index]? with
  | some entry => if entry.is_live then some entry else none
  | none => none

inductive ArchetypeError where
  | EntityMissing
  | ComponentMissing
  | UnderCapacity
deriving DecidableEq

/-- A type-erased component column (`ComponentStore` in archetype.rs): the
column's `TypeId` together with its densely packed values. -/
structure ComponentStore where
  type_id : TypeId
  data : List Val
deriving DecidableEq

/-- ComponentStore::empty_clone: a zero-length column of the same element
type. -/
def ComponentStore.empty_clone (s : ComponentStore) : ComponentStore :=
  ⟨s.type_id, []⟩

/-- An archetype (archetype.rs): columns keyed by `TypeId` (the `HashMap` is
modelled as an association list sorted by `type_id`) plus the parallel list of
owning entity indices. -/
structure Archetype where
  components : List ComponentStore
  entities : List EntityId
deriving DecidableEq

/-- HashMap lookup on the sorted association list. -/
def findStore (stores : List ComponentStore) (tid : TypeId) : Option ComponentStore :=
  stores.find? (fun s => s.type_id == tid)

/-- Update the data of the column keyed by `tid`, when present. -/
def updateStore (stores : List ComponentStore) (tid : TypeId)
    (f : List Val → List Val) : List ComponentStore :=
  stores.map (fun s => if s.type_id == tid then ⟨s.type_id, f s.data⟩ else s)

/-- HashMap::insert on the sorted association list: replaces the column of the
same key, otherwise inserts at the sorted position. -/
def insertStore (stores : List ComponentStore) (s : ComponentStore) :
    List ComponentStore :=
  match stores with
  | [] => [s]
  | t :: rest =>
    if s.type_id < t.type_id then s :: t :: rest
    else if s.type_id = t.type_id then s :: rest
    else t :: insertStore rest s

/-- Vec::swap_remove: removes the element at `i` replacing it by the last
element; out of range is a panic (`none`). -/
def swapRemove {α : Type} (l : List α) (i : Nat) : Option (List α) :=
  if i < l.length then
    match l.getLast? with
    | none => none
    | some last => some ((l.set i last).dropLast)
  else none

/-- Archetype::has_component. -/
def Archetype.has_component (a : Archetype) (tid : TypeId) : Bool :=
  (findStore a.components tid).isSome

/-- The collected type-id list of an archetype's columns, in map iteration
order (sorted, in this model): `components.values().map(type_id)`. -/
def typeIdsOf (a : Archetype) : List TypeId :=
  a.components.map (fun s => s.type_id)

/-- Archetype::add_entity: appends the entity index and calls `expand` on
every column.  `expand` is `Vec::reserve(1)`: it only reserves capacity, the
column lengths do not change.  Returns the new row index. -/
def Archetype.add_entity (a : Archetype) (entity_id : EntityId) : Nat × Archetype :=
  (a.entities.length, ⟨a.components, a.entities ++ [entity_id]⟩)

/-- Archetype::add_entity_component: pushes a value onto the column of the
component's type; a missing column is an `unwrap` panic. -/
def Archetype.add_entity_component (a : Archetype) (tid : TypeId) (v : Val) :
    Option Archetype :=
  match findStore a.components tid with
  | none => none
  | some _ => some ⟨updateStore a.components tid (fun d => d ++ [v]), a.entities⟩

/-- Archetype::remove_entity: pops the last row, or swap-removes `row` and
reports the displaced (last) entity index.  `entities.len() - 1` underflows on
an empty archetype and the subsequent `swap_remove` panics out of range. -/
def Archetype.remove_entity (a : Archetype) (index_in_archetype : Nat) :
    Option (Option EntityId × Archetype) :=
  if a.entities.length = 0 then none
  else if a.entities.length - 1 = index_in_archetype then
    some (none, ⟨a.components, a.entities.dropLast⟩)
  else
    match swapRemove a.entities index_in_archetype with
    | none => none
    | some l => some (a.entities.getLast?, ⟨a.components, l⟩)

/-- Archetype::set_entity_component: `UnderCapacity` when the row is beyond
the column's current length, otherwise overwrite in place.  A missing column
is an `unwrap` panic inside `get_component_set_mut`. -/
def Archetype.set_entity_component (a : Archetype) (index_in_archetype : Nat)
    (tid : TypeId) (v : Val) : Option (Except ArchetypeError Archetype) :=
  match findStore a.components tid with
  | none => none
  | some s =>
    if s.data.length ≤ index_in_archetype then some (.error .UnderCapacity)
    else
      some (.ok ⟨updateStore a.components tid (fun d => d.set index_in_archetype v),
        a.entities⟩)

/-- Archetype::migrate_component: swap-removes the value at the row from the
source's column of `tid` and appends it to the destination's column of the
same type; a missing column on either side is a panic. -/
def Archetype.migrate_component (src : Archetype) (tid : TypeId)
    (index_in_archetype : Nat) (dst : Archetype) : Option (Archetype × Archetype) :=
  match findStore dst.components tid, findStore src.components tid with
  | some _, some s =>
    match s.data[index_in_archetype]?, swapRemove s.data index_in_archetype with
    | some v, some d2 =>
      some (⟨updateStore src.components tid (fun _ => d2), src.entities⟩,
            ⟨updateStore dst.components tid (fun d => d ++ [v]), dst.entities⟩)
    | _, _ => none
  | _, _ => none

/-- Modelled from the spec: `FetchError` — the file `src/ecs/queries/error.rs`
declared by `queries/mod.rs` is absent from src; the spec says "FetchError —
query could not resolve a matching archetype/column". -/
inductive FetchError where
  | NoMatchingArchetype
deriving DecidableEq

inductive EcsError where
  | ArchetypeErr (e : ArchetypeError)
  | EntityErr (e : EntityError)
  | QueryErr (e : FetchError)
deriving DecidableEq

/-- A bundle id: the 64-bit hash of the sorted type-id list is modelled by the
sorted list itself (`calculate_bundle_id`, collision-free model). -/
abbrev BundleId := List TypeId

/-- A component bundle as supplied to `spawn`: the component values with their
type ids, in supply order. -/
abbrev Bundle := List (TypeId × Val)

def bundleTypes (b : Bundle) : List TypeId := b.map Prod.fst

/-- The world (world.rs): the entity table, the append-only archetype list and
the `BundleId → ArchetypeId` cache (an association list models the HashMap). -/
structure World where
  entities : Entities
  archetypes : List Archetype
  bundle_to_archetype : List (BundleId × ArchetypeId)
deriving DecidableEq

def lookupBundle (m : List (BundleId × ArchetypeId)) (b : BundleId) :
    Option ArchetypeId :=
  (m.find? (fun p => p.1 == b)).map (fun p => p.2)

/-- HashMap::insert on the bundle cache. -/
def insertBundle (m : List (BundleId × ArchetypeId)) (b : BundleId)
    (id : ArchetypeId) : List (BundleId × ArchetypeId) :=
  if m.any (fun p => p.1 == b) then m.map (fun p => if p.1 == b then (b, id) else p)
  else m ++ [(b, id)]

def World.new : World := ⟨⟨[], []⟩, [], []⟩

/-- ComponentBundle::new_archetype: one empty column per type of the (sorted)
bundle type list. -/
def newArchetypeOf (sortedTs : List TypeId) : Archetype :=
  ⟨sortedTs.map (fun t => ⟨t, []⟩), []⟩

/-- The `debug_assert` of `spawn_in_world`: adjacent entries of the sorted
type list are distinct (`types.windows(2).all(|x| x[0].1 != x[1].1)`). -/
def adjacentDistinct : List TypeId → Bool
  | [] => true
  | [_] => true
  | a :: b :: rest => a ≠ b && adjacentDistinct (b :: rest)

/-- Sequentially push the bundle's values into their columns, in supply order
(`spawn_in_world`'s per-component `add_component_to_archetype` calls). -/
def pushComponents (a : Archetype) (b : Bundle) : Option Archetype :=
  b.foldlM (fun acc tv => acc.add_entity_component tv.1 tv.2) a

/-- World::spawn together with `ComponentBundle::spawn_in_world`: allocate a
table slot, sort the bundle's type ids (the `debug_assert` rejects duplicate
types), resolve or create the archetype for that sorted list, add a row, push
each value, record the location.  `allocate().unwrap()` and
`set_location(..).unwrap()` panic on errors. -/
def World.spawn (w : World) (bundle : Bundle) : Option (Entity × World) :=
  match w.entities.allocate with
  | some (.ok entity, es1) =>
    let ts := List.insertionSort (fun a b => a ≤ b) (bundleTypes bundle)
    if adjacentDistinct ts then
      let resolved : ArchetypeId × World :=
        match lookupBundle w.bundle_to_archetype ts with
        | some idx => (idx, ⟨es1, w.archetypes, w.bundle_to_archetype⟩)
        | none =>
          (w.archetypes.length,
           ⟨es1, w.archetypes ++ [newArchetypeOf ts],
            insertBundle w.bundle_to_archetype ts w.archetypes.length⟩)
      match resolved.2.archetypes[resolved.1]? with
      | none => none
      | some a =>
        let ra := a.add_entity entity.index
        match pushComponents ra.2 bundle with
        | none => none
        | some a2 =>
          let w2 : World := ⟨resolved.2.entities, resolved.2.archetypes.set resolved.1 a2,
            resolved.2.bundle_to_archetype⟩
          match w2.entities.set_location entity.index ⟨resolved.1, ra.1⟩ with
          | some (.ok _, es2) => some (entity, ⟨es2, w2.archetypes, w2.bundle_to_archetype⟩)
          | _ => none
    else none
  | _ => none

/-- World::remove: deallocate the table slot, nothing else
(`deallocate(entity).unwrap()`). -/
def World.remove (w : World) (e : Entity) : Option World :=
  match w.entities.deallocate e with
  | some (.ok _, es) => some ⟨es, w.archetypes, w.bundle_to_archetype⟩
  | _ => none

/-- Migrate the listed types' values at the given source row into the
destination (the migration loops of add_component / remove_component). -/
def migrateAll (src dst : Archetype) (tids : List TypeId)
    (index_in_archetype : Nat) : Option (Archetype × Archetype) :=
  tids.foldlM
    (fun (p : Archetype × Archetype) t => p.1.migrate_component t index_in_archetype p.2)
    (src, dst)

/-- World::add_component.  Validates liveness (`live_at_index`, no generation
check), overwrites in place when the type is already a column of the current
archetype (the set's Result is `unwrap`ped), otherwise resolves or creates the
destination archetype (cloning the source schema and inserting the new type's
column), moves the row and migrates every old column value, then fixes up the
entity displaced by the swap-remove, exactly in the source's order of state
updates.  `index_twice` panics when source and destination coincide. -/
def World.add_component (w : World) (e : Entity) (tid : TypeId) (v : Val) :
    Option (Except EcsError Unit × World) :=
  match w.entities.live_at_index e.index with
  | none => some (.error (.EntityErr .DoesNotExist), w)
  | some entry =>
    match w.archetypes[entry.location.archetype_id]? with
    | none => none
    | some src =>
      let current_type_ids := typeIdsOf src
      if current_type_ids.contains tid then
        match src.set_entity_component entry.location.index_in_archetype tid v with
        | some (.ok src2) =>
          some (.ok (), ⟨w.entities,
            w.archetypes.set entry.location.archetype_id src2, w.bundle_to_archetype⟩)
        | _ => none
      else
        let new_type_ids := List.orderedInsert (fun a b => a ≤ b) tid current_type_ids
        let resolved : ArchetypeId × World :=
          match lookupBundle w.bundle_to_archetype new_type_ids with
          | some idx => (idx, w)
          | none =>
            (w.archetypes.length,
             ⟨w.entities,
              w.archetypes ++
                [⟨insertStore (src.components.map ComponentStore.empty_clone) ⟨tid, []⟩, []⟩],
              insertBundle w.bundle_to_archetype new_type_ids w.archetypes.length⟩)
        let dstIdx := resolved.1
        let w1 := resolved.2
        if dstIdx = entry.location.archetype_id then none
        else
          match w1.archetypes[dstIdx]? with
          | none => none
          | some dst =>
            let rd := dst.add_entity e.index
            let w2 : World := ⟨w1.entities, w1.archetypes.set dstIdx rd.2,
              w1.bundle_to_archetype⟩
            match w2.entities.set_location e.index ⟨dstIdx, rd.1⟩ with
            | none => none
            | some (.error err, es2) =>
              some (.error (.EntityErr err), ⟨es2, w2.archetypes, w2.bundle_to_archetype⟩)
            | some (.ok _, es2) =>
              let w3 : World := ⟨es2, w2.archetypes, w2.bundle_to_archetype⟩
              match w3.archetypes[entry.location.archetype_id]?,
                    w3.archetypes[dstIdx]? with
              | some srcA, some dstA =>
                match migrateAll srcA dstA current_type_ids
                    entry.location.index_in_archetype with
                | none => none
                | some (src3, dst3) =>
                  match dst3.add_entity_component tid v with
                  | none => none
                  | some dst4 =>
                    match src3.remove_entity entry.location.index_in_archetype with
                    | none => none
                    | some (movedOpt, src4) =>
                      let w4 : World := ⟨w3.entities,
                        (w3.archetypes.set entry.location.archetype_id src4).set dstIdx dst4,
                        w3.bundle_to_archetype⟩
                      match movedOpt with
                      | none => some (.ok (), w4)
                      | some moved =>
                        match w4.entities.set_location moved entry.location with
                        | none => none
                        | some (.error err, es3) =>
                          some (.error (.EntityErr err),
                            ⟨es3, w4.archetypes, w4.bundle_to_archetype⟩)
                        | some (.ok _, es3) =>
                          some (.ok (), ⟨es3, w4.archetypes, w4.bundle_to_archetype⟩)
              | _, _ => none

/-- World::remove_component.  Mirrors add_component: `ComponentMissing` when
the type is not a column of the current archetype; otherwise the new type list
is the current one with the type removed, but a freshly created destination
archetype clones every source column and then inserts a column for the removed
type again (`new_archetype.components.insert(type_id, ComponentStore::new::<T>())`),
and only the remaining types' values are migrated. -/
def World.remove_component (w : World) (e : Entity) (tid : TypeId) :
    Option (Except EcsError Unit × World) :=
  match w.entities.live_at_index e.index with
  | none => some (.error (.EntityErr .DoesNotExist), w)
  | some entry =>
    match w.archetypes[entry.location.archetype_id]? with
    | none => none
    | some src =>
      let current_type_ids := typeIdsOf src
      if current_type_ids.contains tid then
        let new_type_ids := current_type_ids.erase tid
        let resolved : ArchetypeId × World :=
          match lookupBundle w.bundle_to_archetype new_type_ids with
          | some idx => (idx, w)
          | none =>
            (w.archetypes.length,
             ⟨w.entities,
              w.archetypes ++
                [⟨insertStore (src.components.map ComponentStore.empty_clone) ⟨tid, []⟩, []⟩],
              insertBundle w.bundle_to_archetype new_type_ids w.archetypes.length⟩)
        let dstIdx := resolved.1
        let w1 := resolved.2
        if dstIdx = entry.location.archetype_id then none
        else
          match w1.archetypes[dstIdx]? with
          | none => none
          | some dst =>
            let rd := dst.add_entity e.index
            let w2 : World := ⟨w1.entities, w1.archetypes.set dstIdx rd.2,
              w1.bundle_to_archetype⟩
            match w2.entities.set_location e.index ⟨dstIdx, rd.1⟩ with
            | none => none
            | some (.error err, es2) =>
              some (.error (.EntityErr err), ⟨es2, w2.archetypes, w2.bundle_to_archetype⟩)
            | some (.ok _, es2) =>
              let w3 : World := ⟨es2, w2.archetypes, w2.bundle_to_archetype⟩
              match w3.archetypes[entry.location.archetype_id]?,
                    w3.archetypes[dstIdx]? with
              | some srcA, some dstA =>
                match migrateAll srcA dstA new_type_ids
                    entry.location.index_in_archetype with
                | none => none
                | some (src3, dst3) =>
                  match src3.remove_entity entry.location.index_in_archetype with
                  | none => none
                  | some (movedOpt, src4) =>
                    let w4 : World := ⟨w3.entities,
                      (w3.archetypes.set entry.location.archetype_id src4).set dstIdx dst3,
                      w3.bundle_to_archetype⟩
                    match movedOpt with
                    | none => some (.ok (), w4)
                    | some moved =>
                      match w4.entities.set_location moved entry.location with
                      | none => none
                      | some (.error err, es3) =>
                        some (.error (.EntityErr err),
                          ⟨es3, w4.archetypes, w4.bundle_to_archetype⟩)
                      | some (.ok _, es3) =>
                        some (.ok (), ⟨es3, w4.archetypes, w4.bundle_to_archetype⟩)
              | _, _ => none
      else some (.error (.ArchetypeErr .ComponentMissing), w)

/-- World::has_component: resolve the handle through `live_at_index` (no
generation check) and ask the located archetype for the column. -/
def World.has_component (w : World) (e : Entity) (tid : TypeId) : Option Bool :=
  match w.entities.live_at_index e.index with
  | none => some false
  | some entry =>
    match w.archetypes[entry.location.archetype_id]? with
    | none => none
    | some a => some (a.has_component tid)

/-- QueryParameter::matches_archetype: the archetype has a column for every
requested type.  Defined in query_parameters.rs but never called on the fetch
path. -/
def matches_archetype (a : Archetype) (tids : List TypeId) : Bool :=
  tids.all (fun t => a.has_component t)

/-- QueryParameterFetchRead::fetch / QueryParameterFetchWrite::fetch for one
requested type: `get_archetype` indexes the archetype list directly (panic out
of range) and the column lookup is `unwrap`ped (panic when missing); the
`try_read`/`try_write` of the single-owner model succeeds.  No error is ever
returned. -/
def fetchParam (w : World) (aid : ArchetypeId) (tid : TypeId) : Option (List Val) :=
  match w.archetypes[aid]? with
  | none => none
  | some a =>
    match findStore a.components tid with
    | none => none
    | some s => some s.data

/-- World::query via `query` (query.rs): fetches every requested type against
the hard-coded archetype 0 and wraps the borrows in `Ok`. -/
def World.query (w : World) (tids : List TypeId) :
    Option (Except FetchError (List (List Val))) :=
  (tids.mapM (fetchParam w 0)).map Except.ok

/-- Classifies a query outcome: did the call return an `Err`?  (`none` is a
panic, not an `Err`.) -/
def queryIsErr (r : Option (Except FetchError (List (List Val)))) : Bool :=
  match r with
  | some (.error _) => true
  | _ => false


/-! ### Concrete runs used by the counterexample evaluations -/

/-- The world after `spawn((A, B))` with component types 0 and 1 carrying the
values 10 and 20: one archetype with column set {0, 1}. -/
def spawnABWorld : Option World := (World.new.spawn [(0, 10), (1, 20)]).map Prod.snd

/-- The previous world after `remove_component::<B>` (type 1) on the spawned
entity, keeping only the successful outcome. -/
def removeBWorld : Option World :=
  spawnABWorld.bind fun w =>
    match w.remove_component ⟨0, 0⟩ 1 with
    | some (.ok _, w2) => some w2
    | _ => none

/-- The world after `spawn((A,))`; `remove`; `spawn((A,))`: index 0 is freed
and reused, so the second spawned entity is the handle (0, 1) while (0, 0) is
stale. -/
def reuseIndexWorld : Option World :=
  ((World.new.spawn [(0, 10)]).map Prod.snd).bind fun w =>
    (w.remove ⟨0, 0⟩).bind fun w2 =>
      (w2.spawn [(0, 11)]).map Prod.snd

/-- The world after `spawn((A,))`; `remove`. -/
def removeOnlyWorld : Option World :=
  ((World.new.spawn [(0, 10)]).map Prod.snd).bind fun w => w.remove ⟨0, 0⟩

/-! ### Helper lemmas about Entities::deallocate -/

lemma deallocate_oob {es : Entities} {e : Entity} (hle : es.entries.length ≤ e.index) :
    es.deallocate e = some (.error .DoesNotExist, es) := by
  simp [Entities.deallocate, hle]

lemma deallocate_dead {es : Entities} {e : Entity} {en : EntityEntry}
    (hen : es.entries[e.index]? = some en) (hl : en.is_live = false) :
    es.deallocate e = some (.error .AlreadyDeallocated, es) := by
  have hlt : e.index < es.entries.length := (List.getElem?_eq_some.mp hen).1
  simp [Entities.deallocate, Nat.not_le.mpr hlt, hen, hl]

lemma deallocate_ok_eq {es : Entities} {e : Entity} {en : EntityEntry}
    (hen : es.entries[e.index]? = some en) (hl : en.is_live = true)
    (hgen : en.generation + 1 < GEN_LIMIT) :
    es.deallocate e = some (.ok (),
      ⟨es.entries.set e.index ⟨false, en.generation + 1, en.location⟩,
       e.index :: es.free⟩) := by
  have hlt : e.index < es.entries.length := (List.getElem?_eq_some.mp hen).1
  simp [Entities.deallocate, Nat.not_le.mpr hlt, hen, hl, hgen]

lemma deallocate_overflow {es : Entities} {e : Entity} {en : EntityEntry}
    (hen : es.entries[e.index]? = some en) (hl : en.is_live = true)
    (hgen : ¬ en.generation + 1 < GEN_LIMIT) :
    es.deallocate e = none := by
  have hlt : e.index < es.entries.length := (List.getElem?_eq_some.mp hen).1
  simp [Entities.deallocate, Nat.not_le.mpr hlt, hen, hl, hgen]

/-- Exhaustive description of Entities::deallocate's behaviour. -/
lemma deallocate_cases (es : Entities) (e : Entity) :
    (es.entries.length ≤ e.index ∧ es.deallocate e = some (.error .DoesNotExist, es))
  ∨ (∃ en, es.entries[e.index]? = some en ∧ en.is_live = false ∧
      es.deallocate e = some (.error .AlreadyDeallocated, es))
  ∨ (∃ en, es.entries[e.index]? = some en ∧ en.is_live = true ∧
      ((en.generation + 1 < GEN_LIMIT ∧
        es.deallocate e = some (.ok (),
          ⟨es.entries.set e.index ⟨false, en.generation + 1, en.location⟩,
           e.index :: es.free⟩))
       ∨ (¬ en.generation + 1 < GEN_LIMIT ∧ es.deallocate e = none))) := by
  by_cases hle : es.entries.length ≤ e.index
  · exact Or.inl ⟨hle, deallocate_oob hle⟩
  · have hlt : e.index < es.entries.length := Nat.lt_of_not_le hle
    obtain ⟨en, hen⟩ : ∃ en, es.entries[e.index]? = some en :=
      ⟨es.entries[e.index], List.getElem?_eq_getElem hlt⟩
    cases hl : en.is_live with
    | false => exact Or.inr (Or.inl ⟨en, hen, hl, deallocate_dead hen hl⟩)
    | true =>
      by_cases hgen : en.generation + 1 < GEN_LIMIT
      · exact Or.inr (Or.inr ⟨en, hen, hl, Or.inl ⟨hgen, deallocate_ok_eq hen hl hgen⟩⟩)
      · exact Or.inr (Or.inr ⟨en, hen, hl, Or.inr ⟨hgen, deallocate_overflow hen hl hgen⟩⟩)

lemma deallocate_ok_inv {es : Entities} {e : Entity} {es2 : Entities}
    (h : es.deallocate e = some (.ok (), es2)) :
    ∃ en, es.entries[e.index]? = some en ∧ en.is_live = true ∧
      en.generation + 1 < GEN_LIMIT ∧
      es2 = ⟨es.entries.set e.index ⟨false, en.generation + 1, en.location⟩,
             e.index :: es.free⟩ := by
  rcases deallocate_cases es e with ⟨_, hd⟩ | ⟨en, _, _, hd⟩ | ⟨en, hen, hl, hok | hov⟩
  · rw [hd] at h; simp at h
  · rw [hd] at h; simp at h
  · rw [hok.2] at h
    simp at h
    exact ⟨en, hen, hl, hok.1, h.symm⟩
  · rw [hov.2] at h; simp at h

/-! ### The claims -/

/-- C1.  The claim says the World holds at most one archetype per distinct
column type set.  The code violates it: after `spawn((A, B))` (component
types 0 and 1) the world holds one archetype with column set {0, 1}; the
subsequent `remove_component::<B>` creates a second archetype — registered
under the bundle id of {0} — whose column set is again {0, 1}, because the
creation path clones every source column and then inserts a column for the
removed type.  Two distinct archetypes with the same column type set
coexist. -/
theorem c1_remove_component_duplicates_type_set :
    spawnABWorld.map (fun w => w.archetypes.map typeIdsOf) = some [[0, 1]]
  ∧ removeBWorld.map (fun w => w.archetypes.map typeIdsOf) = some [[0, 1], [0, 1]] :=
  ⟨rfl, rfl⟩

/-- C2.  The claim says that after every public World operation every column's
length equals the archetype's entities length.  After `spawn((A, B))` then
`remove_component::<B>` both archetypes violate it: the source archetype has
no entities left but its column for type 1 still holds the abandoned value
(length 1), and the destination archetype holds one entity but its (wrongly
created) column for type 1 is empty (length 0). -/
theorem c2_column_length_desync_after_remove_component :
    removeBWorld.map (fun w => w.archetypes.map (fun a =>
      (a.entities.length, a.components.map (fun s => (s.type_id, s.data.length)))))
    = some [(0, [(0, 0), (1, 1)]), (1, [(0, 1), (1, 0)])] :=
  rfl

/-- C3.  The claim says `add_component::<T>` on a live entity whose archetype
already has a column for `T` overwrites in place and returns `Ok`.  In the
world reached by `spawn((A, B))`; `remove_component::<B>`, the entity is live
and its archetype has a column for type 1 (the bug of C1/C4), yet
`add_component` of type 1 panics: the overwrite path `unwrap`s an
`UnderCapacity` error because the column has no row for the entity. -/
theorem c3_overwrite_panics_on_live_entity_with_component :
    removeBWorld.map (fun w => w.entities.is_live ⟨0, 0⟩) = some true
  ∧ removeBWorld.bind (fun w => w.has_component ⟨0, 0⟩ 1) = some true
  ∧ removeBWorld.bind (fun w => w.add_component ⟨0, 0⟩ 1 99) = none :=
  ⟨rfl, rfl, rfl⟩

/-- C4.  The claim says the destination archetype of `remove_component::<T>`
has the source's column key set with `T` excluded; in particular a freshly
created destination has no column for `T`.  In the run `spawn((A, B))`;
`remove_component::<B>` the call creates archetype 1 (the world grows from one
archetype to two) and that new archetype does have a column for the removed
type 1: its key set is {0, 1}, not {0}. -/
theorem c4_created_destination_retains_removed_column :
    spawnABWorld.map (fun w => w.archetypes.length) = some 1
  ∧ removeBWorld.map (fun w => w.archetypes.length) = some 2
  ∧ removeBWorld.bind (fun w => (w.archetypes[1]?).map typeIdsOf) = some [0, 1]
  ∧ removeBWorld.bind (fun w => (w.archetypes[1]?).map (fun a => a.has_component 1))
      = some true :=
  ⟨rfl, rfl, rfl, rfl⟩

/-- C5.  The claim says `has_component` returns false for every non-live
handle, in particular for a stale generation on a reused index.  After
`spawn((A,))`; `remove`; `spawn((A,))` the handle (0, 0) is stale (the table
stores generation 1 at index 0, so `is_live` is false), yet `has_component`
reports true: `World::has_component` resolves the handle through
`live_at_index`, which never compares generations, and so answers for the new
occupant of the reused index. -/
theorem c5_stale_handle_reports_component_of_reused_index :
    reuseIndexWorld.map (fun w => w.entities.is_live ⟨0, 0⟩) = some false
  ∧ reuseIndexWorld.bind (fun w => w.has_component ⟨0, 0⟩ 0) = some true :=
  ⟨rfl, rfl⟩

/-- C6.  The claim says `remove` both deallocates the table slot and evicts
the entity's archetype row.  After `spawn((A,))`; `remove` the slot is indeed
deallocated (not live, generation bumped, index freed) but the archetype still
holds the row: its entities list is still [0] and the column for type 0 still
holds the value 10.  `World::remove` only calls `deallocate`. -/
theorem c6_remove_does_not_evict_archetype_row :
    removeOnlyWorld.map (fun w => (w.entities.entries[0]?).map
      (fun en => (en.is_live, en.generation))) = some (some (false, 1))
  ∧ removeOnlyWorld.map (fun w => w.entities.free) = some [0]
  ∧ removeOnlyWorld.map (fun w => (w.archetypes[0]?).map (fun a =>
      (a.entities, a.components.map (fun s => (s.type_id, s.data)))))
      = some (some ([0], [(0, [10])])) :=
  ⟨rfl, rfl, rfl⟩

/-- C7.  The claim says an unresolvable query returns an `Err` carrying a
`FetchError`, after a `matches_archetype` check.  The fetch path never
produces an `Err` at all (for every world and every requested type list the
outcome is a panic or an `Ok`), and on the empty world — where no archetype
exists to match — `query` panics by indexing the hard-coded archetype 0 out
of range instead of returning an error. -/
theorem c7_query_panics_instead_of_fetch_error :
    (∀ (w : World) (tids : List TypeId), queryIsErr (w.query tids) = false)
  ∧ World.new.query [0] = none := by
  constructor
  · intro w tids
    cases h : tids.mapM (fetchParam w 0) with
    | none => simp [World.query, queryIsErr, h]
    | some l => simp [World.query, queryIsErr, h]
  · rfl

/-- C8.  Entities::deallocate returns `DoesNotExist` exactly when the handle's
index is out of range of the entries table, `AlreadyDeallocated` exactly when
the index is in range and the slot is not live; on either error the table is
returned unchanged; otherwise (when the incremented generation stays within
the u32 bound — overflow is the fatal trap) it marks the slot not-live,
increments its generation and pushes the index onto the free list. -/
theorem c8_deallocate_error_characterization (es : Entities) (e : Entity) :
    ((∃ es2, es.deallocate e = some (.error .DoesNotExist, es2)) ↔
      es.entries.length ≤ e.index)
  ∧ ((∃ es2, es.deallocate e = some (.error .AlreadyDeallocated, es2)) ↔
      ∃ en, es.entries[e.index]? = some en ∧ en.is_live = false)
  ∧ (∀ err es2, es.deallocate e = some (.error err, es2) → es2 = es)
  ∧ (∀ en, es.entries[e.index]? = some en → en.is_live = true →
      en.generation + 1 < GEN_LIMIT →
      es.deallocate e = some (.ok (),
        ⟨es.entries.set e.index ⟨false, en.generation + 1, en.location⟩,
         e.index :: es.free⟩)) := by
  refine ⟨?_, ?_, ?_, ?_⟩
  · constructor
    · rintro ⟨es2, h⟩
      rcases deallocate_cases es e with ⟨hle, _⟩ | ⟨en, _, _, hd⟩ | ⟨en, _, _, hok | hov⟩
      · exact hle
      · rw [hd] at h; simp at h
      · rw [hok.2] at h; simp at h
      · rw [hov.2] at h; simp at h
    · intro hle
      exact ⟨es, deallocate_oob hle⟩
  · constructor
    · rintro ⟨es2, h⟩
      rcases deallocate_cases es e with ⟨hle, hd⟩ | ⟨en, hen, hl, hd⟩ | ⟨en, _, _, hok | hov⟩
      · rw [hd] at h; simp at h
      · exact ⟨en, hen, hl⟩
      · rw [hok.2] at h; simp at h
      · rw [hov.2] at h; simp at h
    · rintro ⟨en, hen, hl⟩
      exact ⟨es, deallocate_dead hen hl⟩
  · intro err es2 h
    rcases deallocate_cases es e with ⟨hle, hd⟩ | ⟨en, _, _, hd⟩ | ⟨en, _, _, hok | hov⟩
    · rw [hd] at h; simp at h; exact h.2.symm
    · rw [hd] at h; simp at h; exact h.2.symm
    · rw [hok.2] at h; simp at h
    · rw [hov.2] at h; simp at h
  · intro en hen hl hgen
    exact deallocate_ok_eq hen hl hgen

/-- Witness for C8: deallocating the live entity (0, 0) of a one-slot table
marks the slot not-live at generation 1 and frees index 0. -/
theorem c8_deallocate_error_characterization_witness :
    Entities.deallocate ⟨[⟨true, 0, ⟨0, 0⟩⟩], []⟩ ⟨0, 0⟩
      = some (.ok (), ⟨[⟨false, 1, ⟨0, 0⟩⟩], [0]⟩) :=
  (c8_deallocate_error_characterization ⟨[⟨true, 0, ⟨0, 0⟩⟩], []⟩ ⟨0, 0⟩).2.2.2
    ⟨true, 0, ⟨0, 0⟩⟩ rfl rfl (by decide)

/-- C9.  After a successful deallocation of a live entity, the next
`allocate` pops the just-freed index from the free list and returns a handle
with the same index and with the stored — already incremented — generation,
which equals the deallocated handle's generation plus one. -/
theorem c9_reallocate_returns_same_index_next_generation (es : Entities)
    (e : Entity) (es2 : Entities) (hlive : es.is_live e = true)
    (hde : es.deallocate e = some (.ok (), es2)) :
    ∃ es3, es2.allocate = some (.ok ⟨e.index, e.generation + 1⟩, es3) := by
  obtain ⟨en, hen, hl, hgen, hes2⟩ := deallocate_ok_inv hde
  have hlt : e.index < es.entries.length := (List.getElem?_eq_some.mp hen).1
  have hgeq : en.generation = e.generation := by
    rw [Entities.is_live, hen] at hlive
    simp at hlive
    exact hlive.2
  subst hes2
  have hset : (es.entries.set e.index
      (⟨false, en.generation + 1, en.location⟩ : EntityEntry))[e.index]?
      = some ⟨false, en.generation + 1, en.location⟩ :=
    List.getElem?_set_eq_of_lt _ hlt
  refine ⟨⟨(es.entries.set e.index ⟨false, en.generation + 1, en.location⟩).set e.index
      ⟨true, en.generation + 1, en.location⟩, es.free⟩, ?_⟩
  rw [← hgeq]
  simp [Entities.allocate, hset]

/-- Witness for C9: in the table left by deallocating (0, 0), `allocate`
returns the handle (0, 1). -/
theorem c9_reallocate_returns_same_index_next_generation_witness :
    ∃ es3, Entities.allocate ⟨[⟨false, 1, ⟨0, 0⟩⟩], [0]⟩
      = some (.ok ⟨0, 1⟩, es3) :=
  c9_reallocate_returns_same_index_next_generation
    ⟨[⟨true, 0, ⟨0, 0⟩⟩], []⟩ ⟨0, 0⟩ ⟨[⟨false, 1, ⟨0, 0⟩⟩], [0]⟩ rfl rfl

/-- C10.  Entities::deallocate never compares the handle's generation with the
stored one: for every handle whose index is in range and whose slot is live it
succeeds — the hypotheses say nothing about the handle's generation — and
afterwards no handle of that index is live, so a stale handle deallocates
whatever entity currently occupies the reused index. -/
theorem c10_deallocate_ignores_handle_generation (es : Entities) (e : Entity)
    (en : EntityEntry) (hen : es.entries[e.index]? = some en)
    (hl : en.is_live = true) (hgen : en.generation + 1 < GEN_LIMIT) :
    es.deallocate e = some (.ok (),
      ⟨es.entries.set e.index ⟨false, en.generation + 1, en.location⟩,
       e.index :: es.free⟩)
  ∧ ∀ g, Entities.is_live
      ⟨es.entries.set e.index ⟨false, en.generation + 1, en.location⟩,
       e.index :: es.free⟩ ⟨e.index, g⟩ = false := by
  have hlt : e.index < es.entries.length := (List.getElem?_eq_some.mp hen).1
  refine ⟨deallocate_ok_eq hen hl hgen, ?_⟩
  intro g
  have hset : (es.entries.set e.index
      (⟨false, en.generation + 1, en.location⟩ : EntityEntry))[e.index]?
      = some ⟨false, en.generation + 1, en.location⟩ :=
    List.getElem?_set_eq_of_lt _ hlt
  simp [Entities.is_live, hset]

/-- Witness for C10: a stale handle (0, 0) deallocates the slot whose stored
generation is 5, and afterwards the current occupant's handle (0, 5) is no
longer live. -/
theorem c10_deallocate_ignores_handle_generation_witness :
    Entities.deallocate ⟨[⟨true, 5, ⟨0, 0⟩⟩], []⟩ ⟨0, 0⟩
      = some (.ok (), ⟨[⟨false, 6, ⟨0, 0⟩⟩], [0]⟩)
  ∧ Entities.is_live ⟨[⟨false, 6, ⟨0, 0⟩⟩], [0]⟩ ⟨0, 5⟩ = false := by
  have h := c10_deallocate_ignores_handle_generation
    ⟨[⟨true, 5, ⟨0, 0⟩⟩], []⟩ ⟨0, 0⟩ ⟨true, 5, ⟨0, 0⟩⟩ rfl rfl (by decide)
  exact ⟨h.1, h.2 5⟩

end RustEcs
